import Mathlib

/-!
Verification of the Smart News Summarizer / Bias Detector core (src/app.py).

Python strings are modelled as `List Char` (Python indexing, slicing and
substring tests are per code point, exactly like `List Char`); Python floats
are modelled as exact rationals `ℚ`; the SQLite table is modelled as an
explicit store value threaded through the operations; the external
capabilities (language detection, summarization, sentiment classification,
article fetching) are modelled as `Except`-valued oracles passed in as
arguments.
-/

namespace SmartNews

/-- Python `needle`-starts-here test: first list is a point-wise prefix of the
second.  Building block for the substring test below. -/
def matchesHere : List Char → List Char → Bool
  | [], _ => true
  | _ :: _, [] => false
  | a :: as, b :: bs => a == b && matchesHere as bs

/-- Model of Python `needle in hay` (substring containment). -/
def pyIn (needle : List Char) : List Char → Bool
  | [] => matchesHere needle []
  | b :: bs => matchesHere needle (b :: bs) || pyIn needle bs

/-- Model of Python `str.lower()` (ASCII fragment, which covers the labels the
code compares against). -/
def pyLower (s : List Char) : List Char := s.map Char.toLower

/-- Model of Python `str.upper()` (ASCII fragment). -/
def pyUpper (s : List Char) : List Char := s.map Char.toUpper

/-- Model of Python `str.strip()`: drop whitespace from both ends. -/
def pyStrip (s : List Char) : List Char :=
  ((s.dropWhile Char.isWhitespace).reverse.dropWhile Char.isWhitespace).reverse

/-- Model of Python `int()` applied to a (rational-valued) float: truncation
toward zero. -/
def pyInt (q : ℚ) : ℤ := if 0 ≤ q then ⌊q⌋ else ⌈q⌉

/-- Model of `compute_bias` (src/app.py lines 140-179).  The float constants
`0.5`, `60`, `0.7`, `10` are modelled as the exact rationals the source text
denotes.  Returns the `(bias_score, bias_label)` pair. -/
def compute_bias (sentiment_label : List Char) (sentiment_score : ℚ)
    (text_length : ℕ) : ℤ × List Char :=
  let label_lower := pyLower sentiment_label
  let bl : ℚ × List Char :=
    if pyIn "positive".data label_lower then
      (70, "Muhtemel pozitif taraflı (pro)".data)
    else if pyIn "negative".data label_lower then
      (70, "Muhtemel negatif taraflı (anti)".data)
    else
      (20, "Göreceli olarak tarafsız / nötr".data)
  let bias_score : ℚ := bl.1 + (sentiment_score - 0.5) * 60
  let step2 : ℚ × List Char :=
    if text_length < 500 then
      (bias_score * 0.7, bl.2 ++ " – kısa metin (düşük güven)".data)
    else (bias_score, bl.2)
  let bias_score2 : ℚ :=
    if text_length > 3000 ∧ sentiment_score > 0.7 then step2.1 + 10 else step2.1
  (pyInt (min 100 (max 0 bias_score2)), step2.2)

/-- The bias score exactly as the specification words it: base 70 when the
lowercased label contains "positive" or "negative" and 20 otherwise, then
`rawScore = base + (score - 0.5) * 60`, the short-text penalty, the long-text
bonus, clamping to [0,100] and truncation toward zero. -/
def claimBiasScore (sentiment_label : List Char) (sentiment_score : ℚ)
    (text_length : ℕ) : ℤ :=
  let ll := pyLower sentiment_label
  let base : ℚ :=
    if pyIn "positive".data ll || pyIn "negative".data ll then 70 else 20
  let raw1 : ℚ := base + (sentiment_score - 0.5) * 60
  let raw2 : ℚ := if text_length < 500 then raw1 * 0.7 else raw1
  let raw3 : ℚ :=
    if text_length > 3000 ∧ sentiment_score > 0.7 then raw2 + 10 else raw2
  pyInt (min 100 (max 0 raw3))

/-- The bias label as the code computes it, in the functional form the
(amended) claim states: branch label chosen by the "positive" / "negative" /
otherwise cases, with the short-text suffix appended when the text length is
below 500. -/
def claimBiasLabel (sentiment_label : List Char) (text_length : ℕ) : List Char :=
  (if pyIn "positive".data (pyLower sentiment_label) then
      "Muhtemel pozitif taraflı (pro)".data
    else if pyIn "negative".data (pyLower sentiment_label) then
      "Muhtemel negatif taraflı (anti)".data
    else "Göreceli olarak tarafsız / nötr".data) ++
  (if text_length < 500 then " – kısa metin (düşük güven)".data else [])

/-- A row of the `analyses` table (src/app.py lines 26-36), in the column
order of the schema. -/
structure DBRecord where
  id : ℕ
  created_at : List Char
  source_type : List Char
  source_input : List Char
  summary : List Char
  sentiment_label : List Char
  sentiment_score : ℚ
  bias_score : ℤ
  bias_label : List Char
deriving DecidableEq

/-- The SQLite database, modelled as a value: the next AUTOINCREMENT id and
the rows, held most-recent-first (descending id, the order the SELECT with
ORDER BY id DESC returns them in). -/
structure Store where
  nextId : ℕ
  rows : List DBRecord
deriving DecidableEq

/-- Model of `save_analysis` (src/app.py lines 43-68): inserts a row whose
`created_at` is the current timestamp (passed in as `now`), whose
`source_input` is truncated to the first 200 characters, and whose id is the
AUTOINCREMENT id assigned by the insert; returns that id with the new store. -/
def save_analysis (store : Store) (now : List Char)
    (source_type source_input summary sentiment_label : List Char)
    (sentiment_score : ℚ) (bias_score : ℤ) (bias_label : List Char) :
    ℕ × Store :=
  let r : DBRecord :=
    { id := store.nextId
      created_at := now
      source_type := source_type
      source_input := source_input.take 200
      summary := summary
      sentiment_label := sentiment_label
      sentiment_score := sentiment_score
      bias_score := bias_score
      bias_label := bias_label }
  (store.nextId, { nextId := store.nextId + 1, rows := r :: store.rows })

/-- Model of `get_last_analyses` (src/app.py lines 71-87): the `limit` most
recent rows, descending id. -/
def get_last_analyses (store : Store) (limit : ℕ) : List DBRecord :=
  store.rows.take limit

/-- Model of `get_analysis_by_id` (src/app.py lines 90-105): exact lookup by
id, `none` when absent. -/
def get_analysis_by_id (store : Store) (analysis_id : ℕ) : Option DBRecord :=
  store.rows.find? (fun r => r.id == analysis_id)

/-- Model of the `/history` route logic (src/app.py lines 284-294): fetch the
50 most recent rows; when a non-empty sentiment filter is given, upper-case it
and keep the rows whose sentiment label (upper-cased) contains it. -/
def history (store : Store) (sentiment_filter : Option (List Char)) :
    List DBRecord :=
  let rows := get_last_analyses store 50
  match sentiment_filter with
  | none => rows
  | some f =>
    if f = [] then rows
    else rows.filter (fun r => pyIn (pyUpper f) (pyUpper r.sentiment_label))

/-- Errors surfaced by the orchestration, following the taxonomy of the
specification: invalid input, or a failed external capability. -/
inductive AppError where
  | validation (msg : List Char)
  | upstream (msg : List Char)
deriving DecidableEq

/-- The external capabilities `perform_analysis` invokes, as oracles.  The
`detect` error carries no message because the code catches exactly
`LangDetectException` regardless of its content; `summarize` stands for the
fixed-parameter call `summarizer(x, max_length=150, min_length=40,
do_sample=False)[0]["summary_text"]` and `classify` for
`sentiment_model(x)[0]` read back as a `(label, score)` pair. -/
structure Capabilities where
  detect : List Char → Except Unit (List Char)
  summarize : List Char → Except (List Char) (List Char)
  classify : List Char → Except (List Char) ((List Char) × ℚ)

/-- Model of Python `round(x, 3)`: round half to even at the third decimal. -/
def pyRound3 (q : ℚ) : ℚ :=
  let s := q * 1000
  let n := ⌊s⌋
  let frac := s - n
  let r : ℤ :=
    if frac > 0.5 then n + 1
    else if frac < 0.5 then n
    else if n % 2 = 0 then n else n + 1
  (r : ℚ) / 1000

/-- The dict `perform_analysis` returns (src/app.py lines 230-241). -/
structure AnalysisResult where
  full_text : List Char
  summary : List Char
  sentiment_label : List Char
  sentiment_score : ℚ
  bias_score : ℤ
  bias_label : List Char
  source_type : List Char
  source_input : List Char
  language : List Char
  text_length : ℕ
deriving DecidableEq

/-- The input handed to the summarizer (src/app.py lines 197-200): the full
text, truncated to its first 2000 characters when longer. -/
def summarization_input (full_text : List Char) : List Char :=
  if full_text.length > 2000 then full_text.take 2000 else full_text

/-- Model of `perform_analysis` (src/app.py lines 186-242).  Language is
detected on the first 1000 characters, a detection failure being replaced by
"unknown"; the summary of the (possibly truncated) text is classified; bias
is computed; the record is saved; the result dict is returned together with
the resulting store.  A failing summarization or classification raises, which
surfaces as an upstream error with the store untouched. -/
def perform_analysis (caps : Capabilities) (store : Store) (now : List Char)
    (source_type source_input full_text : List Char) :
    Except AppError AnalysisResult × Store :=
  let language : List Char :=
    match caps.detect (full_text.take 1000) with
    | .ok l => l
    | .error _ => "unknown".data
  let text_length := full_text.length
  match caps.summarize (summarization_input full_text) with
  | .error e => (.error (.upstream e), store)
  | .ok summary_text =>
    match caps.classify summary_text with
    | .error e => (.error (.upstream e), store)
    | .ok (sentiment_label, sentiment_score) =>
      let bl := compute_bias sentiment_label sentiment_score text_length
      let saved := save_analysis store now source_type source_input summary_text
        sentiment_label sentiment_score bl.1 bl.2
      (.ok
        { full_text := full_text
          summary := summary_text
          sentiment_label := sentiment_label
          sentiment_score := pyRound3 sentiment_score
          bias_score := bl.1
          bias_label := bl.2
          source_type := source_type
          source_input := source_input
          language := language
          text_length := text_length }, saved.2)

/-- Model of the `/api/analyze` route (src/app.py lines 313-347); the `/`
route (lines 249-281) runs the identical validation and analysis flow, with
different user-facing messages.  The article fetch for a url input is the
oracle `fetch`; raw text input is stripped before use.  Validation failures
and the too-short check happen before any analysis step. -/
def api_analyze (caps : Capabilities) (fetch : List Char → Except (List Char) (List Char))
    (store : Store) (now : List Char)
    (input_type url raw_text : List Char) :
    Except AppError AnalysisResult × Store :=
  let resolved : Except AppError ((List Char) × (List Char) × (List Char)) :=
    if input_type = "url".data ∧ pyStrip url ≠ [] then
      match fetch (pyStrip url) with
      | .error e => .error (.upstream e)
      | .ok t => .ok ("url".data, pyStrip url, t)
    else if input_type = "text".data ∧ pyStrip raw_text ≠ [] then
      .ok ("text".data, pyStrip raw_text, pyStrip raw_text)
    else .error (.validation "URL veya metin zorunlu.".data)
  match resolved with
  | .error e => (.error e, store)
  | .ok (source_type, source_input, full_text) =>
    if full_text.length < 50 then
      (.error (.validation "Haber metni çok kısa.".data), store)
    else
      perform_analysis caps store now source_type source_input full_text

/-- The language field of a successful analysis result, `none` on failure. -/
def resultLanguage : Except AppError AnalysisResult → Option (List Char)
  | .ok r => some r.language
  | .error _ => none

/-- The source-input field of a successful analysis result, `none` on
failure. -/
def resultSourceInput : Except AppError AnalysisResult → Option (List Char)
  | .ok r => some r.source_input
  | .error _ => none

/-- Fixture capabilities whose calls all succeed, for concrete instances. -/
def capsOk : Capabilities :=
  { detect := fun _ => .ok "en".data
    summarize := fun _ => .ok "Summary of the article.".data
    classify := fun _ => .ok ("positive".data, 1) }

/-- Fixture capabilities whose summarization fails, for concrete instances. -/
def capsFail : Capabilities :=
  { detect := fun _ => .ok "en".data
    summarize := fun _ => .error "model error".data
    classify := fun _ => .ok ([], 0) }

/-- Fixture capabilities whose language detection fails while everything else
succeeds, for concrete instances. -/
def capsDetectFail : Capabilities :=
  { detect := fun _ => .error ()
    summarize := fun _ => .ok "Summary of the article.".data
    classify := fun _ => .ok ("neutral".data, 0) }

/-- Fixture article text of length 50 whose stripped length is only 49. -/
def urlText49 : List Char := List.replicate 49 'a' ++ [' ']

/-- Fixture raw text of 50 non-whitespace characters. -/
def text50 : List Char := List.replicate 50 'a'

/-- Fixture source input longer than 200 characters. -/
def longInput : List Char := List.replicate 201 'x'

/-- Fixture store with two rows, most recent first. -/
def storeFixture : Store :=
  { nextId := 3
    rows := [{ id := 2, created_at := [], source_type := [], source_input := []
               summary := [], sentiment_label := "negative".data
               sentiment_score := 1, bias_score := 50, bias_label := [] },
             { id := 1, created_at := [], source_type := [], source_input := []
               summary := [], sentiment_label := "POSITIVE".data
               sentiment_score := 1, bias_score := 50, bias_label := [] }] }

lemma pyInt_clamp_nonneg (x : ℚ) : 0 ≤ pyInt (min 100 (max 0 x)) := by
  have h0 : (0 : ℚ) ≤ min 100 (max 0 x) := le_min (by norm_num) (le_max_left 0 x)
  rw [pyInt, if_pos h0]
  exact Int.le_floor.mpr (by exact_mod_cast h0)

lemma pyInt_clamp_le (x : ℚ) : pyInt (min 100 (max 0 x)) ≤ 100 := by
  have h0 : (0 : ℚ) ≤ min 100 (max 0 x) := le_min (by norm_num) (le_max_left 0 x)
  rw [pyInt, if_pos h0]
  have h1 : (min 100 (max 0 x)) ≤ (100 : ℚ) := min_le_left _ _
  calc ⌊min 100 (max 0 x)⌋ ≤ ⌊(100 : ℚ)⌋ := Int.floor_le_floor h1
    _ = 100 := by norm_num

/-- C1: `compute_bias` computes the bias score exactly as the specification
describes it (base 70 for a label containing "positive" or "negative", 20
otherwise; `rawScore = base + (score - 0.5) * 60`; short-text penalty `* 0.7`
below 500 characters, applied before the long-text bonus `+ 10` above 3000
characters with score above 0.7; clamp to [0,100]; truncate toward zero), and
in particular `compute_bias "POSITIVE" 0.9 4000` returns bias score 100. -/
theorem C1_bias_score_matches_spec (label : List Char) (score : ℚ) (len : ℕ)
    (h0 : 0 ≤ score) (h1 : score ≤ 1) :
    (compute_bias label score len).1 = claimBiasScore label score len ∧
    (compute_bias "POSITIVE".data (0.9 : ℚ) 4000).1 = 100 := by
  constructor
  · simp only [compute_bias, claimBiasScore]
    cases hp : pyIn "positive".data (pyLower label) <;>
      cases hn : pyIn "negative".data (pyLower label) <;>
      by_cases hl : len < 500 <;>
      simp [hp, hn, hl]
  · have hp : pyIn "positive".data (pyLower "POSITIVE".data) = true := by decide
    simp only [compute_bias, hp, if_true]
    norm_num [pyInt, min_def, max_def]

/-- Witness for C1 at a concrete input. -/
theorem C1_bias_score_matches_spec_witness :
    (compute_bias "POSITIVE".data 1 600).1 = claimBiasScore "POSITIVE".data 1 600 ∧
    (compute_bias "POSITIVE".data (0.9 : ℚ) 4000).1 = 100 :=
  C1_bias_score_matches_spec "POSITIVE".data 1 600 (by decide) (by decide)

/-- C2: for every sentiment label, sentiment score in [0,1] and text length,
the bias score returned by `compute_bias` lies in [0,100]. -/
theorem C2_bias_score_in_range (label : List Char) (score : ℚ) (len : ℕ)
    (h0 : 0 ≤ score) (h1 : score ≤ 1) :
    0 ≤ (compute_bias label score len).1 ∧ (compute_bias label score len).1 ≤ 100 :=
  ⟨pyInt_clamp_nonneg _, pyInt_clamp_le _⟩

/-- Witness for C2 at a concrete input. -/
theorem C2_bias_score_in_range_witness :
    0 ≤ (compute_bias "NEGATIVE".data 0 100).1 ∧
    (compute_bias "NEGATIVE".data 0 100).1 ≤ 100 :=
  C2_bias_score_in_range "NEGATIVE".data 0 100 (by decide) (by decide)

/-- C4 counterexample: the claim states the returned bias label is the English
string "likely positively biased (pro)" (and that the label of
`compute_bias "POSITIVE" 0.9 4000` contains "positively biased"), but the code
returns the Turkish label "Muhtemel pozitif taraflı (pro)". -/
theorem C4_label_counterexample :
    (compute_bias "POSITIVE".data (0.9 : ℚ) 4000).2 ≠
      "likely positively biased (pro)".data ∧
    pyIn "positively biased".data (compute_bias "POSITIVE".data (0.9 : ℚ) 4000).2
      = false := by decide

/-- C4 (amended): the bias label returned by `compute_bias` is
"Muhtemel pozitif taraflı (pro)" when the lowercased sentiment label contains
"positive", "Muhtemel negatif taraflı (anti)" when it contains "negative" (and
not "positive"), and "Göreceli olarak tarafsız / nötr" otherwise, with
" – kısa metin (düşük güven)" appended when the text length is below 500; in
particular the label of `compute_bias "POSITIVE" 0.9 4000` contains "pozitif"
and the label of `compute_bias "neutral" 0.5 100` contains "nötr" and
"kısa metin". -/
theorem C4_label_amended (label : List Char) (score : ℚ) (len : ℕ) :
    (compute_bias label score len).2 = claimBiasLabel label len ∧
    pyIn "pozitif".data (compute_bias "POSITIVE".data (0.9 : ℚ) 4000).2 = true ∧
    pyIn "nötr".data (compute_bias "neutral".data (0.5 : ℚ) 100).2 = true ∧
    pyIn "kısa metin".data (compute_bias "neutral".data (0.5 : ℚ) 100).2 = true := by
  refine ⟨?_, by decide, by decide, by decide⟩
  simp only [compute_bias, claimBiasLabel]
  cases hp : pyIn "positive".data (pyLower label) <;>
    cases hn : pyIn "negative".data (pyLower label) <;>
    by_cases hl : len < 500 <;>
    simp [hp, hn, hl]

/-- C9: when the lowercased sentiment label contains both "positive" and
"negative", the "positive" branch is taken: `compute_bias` behaves exactly
as on the label "positive" (base 70, positive-bias label), and the returned
label is never the negative-bias one. -/
theorem C9_positive_checked_first (label : List Char) (score : ℚ) (len : ℕ)
    (hp : pyIn "positive".data (pyLower label) = true)
    (hn : pyIn "negative".data (pyLower label) = true) :
    compute_bias label score len = compute_bias "positive".data score len ∧
    (compute_bias label score len).2 ≠ "Muhtemel negatif taraflı (anti)".data ∧
    (compute_bias label score len).2 ≠
      "Muhtemel negatif taraflı (anti)".data ++ " – kısa metin (düşük güven)".data := by
  have hp2 : pyIn "positive".data (pyLower "positive".data) = true := by decide
  refine ⟨?_, ?_, ?_⟩
  · simp only [compute_bias, hp, hp2, if_true]
  · simp only [compute_bias, hp, if_true]
    by_cases hl : len < 500 <;> simp [hl]
  · simp only [compute_bias, hp, if_true]
    by_cases hl : len < 500 <;> simp [hl]

/-- Witness for C9 at a concrete input. -/
theorem C9_positive_checked_first_witness :
    compute_bias "not positive but negative".data 0 1000 =
      compute_bias "positive".data 0 1000 ∧
    (compute_bias "not positive but negative".data 0 1000).2 ≠
      "Muhtemel negatif taraflı (anti)".data ∧
    (compute_bias "not positive but negative".data 0 1000).2 ≠
      "Muhtemel negatif taraflı (anti)".data ++ " – kısa metin (düşük güven)".data :=
  C9_positive_checked_first "not positive but negative".data 0 1000
    (by decide) (by decide)

lemma perform_analysis_not_validation (caps : Capabilities) (store : Store)
    (now st si ft msg : List Char) :
    (perform_analysis caps store now st si ft).1 ≠ .error (.validation msg) := by
  simp only [perform_analysis]
  rcases hs : caps.summarize (summarization_input ft) with e | s
  · simp [hs]
  · rcases hc : caps.classify s with e | ⟨lbl, sc⟩ <;> simp [hs, hc]

/-- C3 counterexample: for a url input the code checks the length of the
fetched text without trimming it, so a fetched text of 50 characters whose
trimmed length is only 49 does not fail with a `ValidationError`, contrary to
the claim that every fullText of trimmed length 49 or fewer fails. -/
theorem C3_too_short_counterexample :
    urlText49.length = 50 ∧ (pyStrip urlText49).length = 49 ∧
    ((api_analyze capsOk (fun _ => .ok urlText49) ⟨1, []⟩ "t".data
        "url".data "http://x".data []).1).isOk = true := by decide

/-- C3 (amended): `analyze` fails with the too-short `ValidationError` exactly
when the resolved `fullText` has fewer than 50 (untrimmed) characters.  For a
text input `fullText` is the stripped raw text, so there the check coincides
with the claimed trimmed-length check (49 or fewer trimmed characters fails,
exactly 50 passes); for a url input the fetched text is measured without
trimming. -/
theorem C3_too_short_amended (caps : Capabilities)
    (fetch : List Char → Except (List Char) (List Char)) (store : Store)
    (now url raw_text : List Char) (hraw : pyStrip raw_text ≠ []) :
    ((api_analyze caps fetch store now "text".data url raw_text).1 =
        .error (.validation "Haber metni çok kısa.".data) ↔
      (pyStrip raw_text).length < 50) ∧
    (∀ t, pyStrip url ≠ [] → fetch (pyStrip url) = .ok t →
      ((api_analyze caps fetch store now "url".data url raw_text).1 =
          .error (.validation "Haber metni çok kısa.".data) ↔
        t.length < 50)) := by
  constructor
  · have hne : ¬("text".data = "url".data ∧ pyStrip url ≠ []) := by
      rintro ⟨h, -⟩
      exact absurd h (by decide)
    simp only [api_analyze, if_neg hne, if_pos (⟨rfl, hraw⟩ : "text".data = "text".data ∧ pyStrip raw_text ≠ [])]
    by_cases hlen : (pyStrip raw_text).length < 50
    · simp [hlen, hraw]
    · simp [hlen, hraw, perform_analysis_not_validation]
  · intro t hurl hf
    simp only [api_analyze,
      if_pos (⟨rfl, hurl⟩ : "url".data = "url".data ∧ pyStrip url ≠ []), hf]
    by_cases hlen : t.length < 50
    · simp [hlen, hurl]
    · simp [hlen, hurl, perform_analysis_not_validation]

/-- Witness for C3 (amended) at a concrete input. -/
theorem C3_too_short_amended_witness :
    ((api_analyze capsOk (fun _ => .error []) ⟨1, []⟩ [] "text".data [] text50).1 =
        .error (.validation "Haber metni çok kısa.".data) ↔
      (pyStrip text50).length < 50) :=
  (C3_too_short_amended capsOk (fun _ => .error []) ⟨1, []⟩ [] [] text50
    (by decide)).1

/-- C5: when summarization fails, or summarization succeeds and sentiment
classification fails, `perform_analysis` surfaces an upstream error and the
store is returned exactly as it was — no record is persisted. -/
theorem C5_upstream_atomicity (caps : Capabilities) (store : Store)
    (now st si ft : List Char) :
    (∀ e, caps.summarize (summarization_input ft) = .error e →
      perform_analysis caps store now st si ft = (.error (.upstream e), store)) ∧
    (∀ s e, caps.summarize (summarization_input ft) = .ok s →
      caps.classify s = .error e →
      perform_analysis caps store now st si ft = (.error (.upstream e), store)) := by
  constructor
  · intro e he
    simp [perform_analysis, he]
  · intro s e hs hc
    simp [perform_analysis, hs, hc]

/-- Witness for C5 at a concrete input. -/
theorem C5_upstream_atomicity_witness :
    perform_analysis capsFail ⟨1, []⟩ [] [] [] [] =
      (.error (.upstream "model error".data), ⟨1, []⟩) :=
  (C5_upstream_atomicity capsFail ⟨1, []⟩ [] [] [] []).1 "model error".data rfl

/-- C6: a record saved through `save_analysis` and re-read through
`get_analysis_by_id` at the returned id comes back with exactly the saved
field values, except `source_input` which is stored truncated to the first
200 characters — hence of length at most 200, and unchanged whenever the
original had at most 200 characters. -/
theorem C6_save_get_roundtrip (store : Store)
    (now st si su lbl : List Char) (sc : ℚ) (bs : ℤ) (bl : List Char) :
    get_analysis_by_id (save_analysis store now st si su lbl sc bs bl).2
        (save_analysis store now st si su lbl sc bs bl).1 =
      some { id := (save_analysis store now st si su lbl sc bs bl).1
             created_at := now
             source_type := st
             source_input := si.take 200
             summary := su
             sentiment_label := lbl
             sentiment_score := sc
             bias_score := bs
             bias_label := bl } ∧
    (si.take 200).length ≤ 200 ∧
    (si.length ≤ 200 → si.take 200 = si) := by
  refine ⟨?_, ?_, fun h => List.take_of_length_le h⟩
  · simp [get_analysis_by_id, save_analysis, List.find?]
  · rw [List.length_take]
    exact min_le_left _ _

/-- Witness for C6 at a concrete input. -/
theorem C6_save_get_roundtrip_witness :
    get_analysis_by_id
        (save_analysis ⟨1, []⟩ "2024-01-01T00:00:00".data "text".data longInput
          "s".data "positive".data 1 70 "l".data).2
        (save_analysis ⟨1, []⟩ "2024-01-01T00:00:00".data "text".data longInput
          "s".data "positive".data 1 70 "l".data).1 =
      some { id := (save_analysis ⟨1, []⟩ "2024-01-01T00:00:00".data "text".data
               longInput "s".data "positive".data 1 70 "l".data).1
             created_at := "2024-01-01T00:00:00".data
             source_type := "text".data
             source_input := longInput.take 200
             summary := "s".data
             sentiment_label := "positive".data
             sentiment_score := 1
             bias_score := 70
             bias_label := "l".data } ∧
    (longInput.take 200).length ≤ 200 ∧
    (longInput.length ≤ 200 → longInput.take 200 = longInput) :=
  C6_save_get_roundtrip ⟨1, []⟩ "2024-01-01T00:00:00".data "text".data longInput
    "s".data "positive".data 1 70 "l".data

/-- C7: with a non-empty sentiment filter, the history listing is exactly the
fetched records filtered by case-insensitive substring match of the filter
against the sentiment label: membership is characterised by the match, order
among matches is preserved (a sublist of the most-recent-first fetch), and
the result is empty — not an error — when nothing matches. -/
theorem C7_history_filter (store : Store) (f : List Char) (hf : f ≠ []) :
    history store (some f) =
      (get_last_analyses store 50).filter
        (fun r => pyIn (pyUpper f) (pyUpper r.sentiment_label)) ∧
    (∀ r, r ∈ history store (some f) ↔
      r ∈ get_last_analyses store 50 ∧
        pyIn (pyUpper f) (pyUpper r.sentiment_label) = true) ∧
    (history store (some f)).Sublist (get_last_analyses store 50) ∧
    ((∀ r ∈ get_last_analyses store 50,
        pyIn (pyUpper f) (pyUpper r.sentiment_label) = false) →
      history store (some f) = []) := by
  have hh : history store (some f) =
      (get_last_analyses store 50).filter
        (fun r => pyIn (pyUpper f) (pyUpper r.sentiment_label)) := by
    simp [history, hf]
  refine ⟨hh, ?_, ?_, ?_⟩
  · intro r
    rw [hh]
    exact List.mem_filter
  · rw [hh]
    exact List.filter_sublist _
  · intro hnone
    rw [hh]
    refine List.filter_eq_nil_iff.mpr ?_
    intro a ha
    simp [hnone a ha]

/-- Witness for C7 at a concrete input. -/
theorem C7_history_filter_witness :
    history storeFixture (some "POSITIVE".data) =
      (get_last_analyses storeFixture 50).filter
        (fun r => pyIn (pyUpper "POSITIVE".data) (pyUpper r.sentiment_label)) :=
  (C7_history_filter storeFixture "POSITIVE".data (by decide)).1

/-- C8: language detection is invoked on at most the first 1000 characters of
the full text (the result depends on the detector only through its value on
that slice), and a detection failure never aborts the pipeline: with the
remaining capabilities succeeding, the analysis still succeeds with language
"unknown" and the record is still persisted. -/
theorem C8_detection_recovered (caps caps2 : Capabilities) (store : Store)
    (now st si ft : List Char) :
    (∀ s lbl sc, caps.summarize (summarization_input ft) = .ok s →
      caps.classify s = .ok (lbl, sc) →
      caps.detect (ft.take 1000) = .error () →
      resultLanguage (perform_analysis caps store now st si ft).1 =
        some "unknown".data ∧
      ((perform_analysis caps store now st si ft).1).isOk = true ∧
      (perform_analysis caps store now st si ft).2.rows.length =
        store.rows.length + 1) ∧
    (∀ e, caps.summarize (summarization_input ft) = .error e →
      ((perform_analysis caps store now st si ft).1).isOk = false) ∧
    (caps2.summarize = caps.summarize → caps2.classify = caps.classify →
      caps2.detect (ft.take 1000) = caps.detect (ft.take 1000) →
      perform_analysis caps2 store now st si ft =
        perform_analysis caps store now st si ft) := by
  refine ⟨?_, ?_, ?_⟩
  · intro s lbl sc hs hc hd
    refine ⟨?_, ?_, ?_⟩ <;>
      simp [perform_analysis, hs, hc, hd, resultLanguage, save_analysis,
        Except.isOk, Except.toBool]
  · intro e he
    simp [perform_analysis, he, Except.isOk, Except.toBool]
  · intro h1 h2 h3
    simp only [perform_analysis, h1, h2, h3]

/-- Witness for C8 at a concrete input. -/
theorem C8_detection_recovered_witness :
    resultLanguage (perform_analysis capsDetectFail ⟨1, []⟩ [] [] [] text50).1 =
      some "unknown".data ∧
    ((perform_analysis capsDetectFail ⟨1, []⟩ [] [] [] text50).1).isOk = true ∧
    (perform_analysis capsDetectFail ⟨1, []⟩ [] [] [] text50).2.rows.length =
      (⟨1, []⟩ : Store).rows.length + 1 :=
  (C8_detection_recovered capsDetectFail capsDetectFail ⟨1, []⟩ [] [] []
    text50).1 "Summary of the article.".data "neutral".data 0 rfl rfl rfl

/-- C10: a successful analysis returns the full, untruncated source input in
its result, while the persisted record stores only its first 200 characters;
when the source input is longer than 200 characters the two therefore
differ. -/
theorem C10_result_untruncated (caps : Capabilities) (store : Store)
    (now st si ft s lbl : List Char) (sc : ℚ)
    (hs : caps.summarize (summarization_input ft) = .ok s)
    (hc : caps.classify s = .ok (lbl, sc)) :
    resultSourceInput (perform_analysis caps store now st si ft).1 = some si ∧
    ((perform_analysis caps store now st si ft).2.rows.head?).map
        DBRecord.source_input = some (si.take 200) ∧
    (si.length > 200 →
      resultSourceInput (perform_analysis caps store now st si ft).1 ≠
        ((perform_analysis caps store now st si ft).2.rows.head?).map
          DBRecord.source_input) := by
  refine ⟨?_, ?_, ?_⟩
  · simp [perform_analysis, hs, hc, resultSourceInput]
  · simp [perform_analysis, hs, hc, save_analysis]
  · intro hlen
    simp only [perform_analysis, hs, hc, resultSourceInput, save_analysis,
      List.head?_cons, Option.map_some]
    intro heq
    have hl2 := congrArg List.length (Option.some.inj (heq))
    rw [List.length_take] at hl2
    omega

/-- Witness for C10 at a concrete input. -/
theorem C10_result_untruncated_witness :
    resultSourceInput
        (perform_analysis capsOk ⟨1, []⟩ [] "text".data longInput text50).1 =
      some longInput ∧
    ((perform_analysis capsOk ⟨1, []⟩ [] "text".data longInput text50).2.rows.head?).map
        DBRecord.source_input = some (longInput.take 200) ∧
    (longInput.length > 200 →
      resultSourceInput
          (perform_analysis capsOk ⟨1, []⟩ [] "text".data longInput text50).1 ≠
        ((perform_analysis capsOk ⟨1, []⟩ [] "text".data longInput text50).2.rows.head?).map
          DBRecord.source_input) :=
  C10_result_untruncated capsOk ⟨1, []⟩ [] "text".data longInput text50
    "Summary of the article.".data "positive".data 1 rfl rfl

end SmartNews
